import Mathlib

/-!
Verification development for the penelope-assistant repository.

The Python modules under src/ are shallowly embedded as pure Lean
functions: file-system state is passed explicitly, collaborator calls
(LLM generation, web search, arXiv search, the vector store) are
supplied as function-valued environment fields, and every fallible
operation is a total Lean function returning the same strings the
Python code returns on its except branches.  Python dictionaries are
embedded as association lists with insertion-order update semantics,
and Python floats (relevance scores) as rationals.
-/

/-! ## Shared helpers

Python string primitives are embedded at the level of character lists
so that every operation is structurally recursive and evaluable. -/

/-- Embedding of the Python expression sep.join(parts). -/
def joinSep (sep : String) : List String → String
  | [] => ""
  | [x] => x
  | x :: y :: ys => x ++ sep ++ joinSep sep (y :: ys)

/-- Embedding of Python str.lower on the characters of the string. -/
def pyLower (s : String) : String := ⟨s.data.map Char.toLower⟩

/-- Embedding of Python str.startswith. -/
def pyStartsWith (s pre : String) : Bool := pre.data.isPrefixOf s.data

/-- Embedding of Python str.strip(): whitespace removed from both
ends. -/
def pyStrip (s : String) : String :=
  ⟨((s.data.dropWhile Char.isWhitespace).reverse.dropWhile Char.isWhitespace).reverse⟩

/-- Embedding of the Python slice s[n:] (character positions). -/
def pyDrop (s : String) (n : ℕ) : String := ⟨s.data.drop n⟩

/-- Whether pat occurs as a contiguous run inside s. -/
def listHasInfix (pat : List Char) : List Char → Bool
  | [] => pat.isEmpty
  | c :: rest => pat.isPrefixOf (c :: rest) || listHasInfix pat rest

/-- Embedding of the Python membership test pat in s. -/
def pyContains (s pat : String) : Bool := listHasInfix pat.data s.data

/-- Embedding of os.path.basename restricted to slash separators: the
component after the last slash. -/
def pathBasename (s : String) : String :=
  ⟨(s.data.reverse.takeWhile (fun c => c ≠ '/')).reverse⟩

/-- A chat message as stored by the repository: a Python dict with keys
role and content (src/memory.py, src/ui.py). -/
structure Msg where
  role : String
  content : String
deriving DecidableEq, Repr

/-! ## Knowledge-base retrieval (src/knowledge_base.py) -/

/-- A document returned by the vector store: page_content plus the
metadata keys read by search_relevant_context (source, file_type, type,
title); absent keys are modelled as none, matching dict.get defaults. -/
structure KBDoc where
  page_content : String
  source : Option String
  file_type : Option String
  typeTag : Option String
  title : Option String
deriving DecidableEq, Repr

/-- Rendering of the Python format f-string piece for the score with two
decimal places; scores are embedded as rationals. -/
def formatScore (q : ℚ) : String :=
  let c : ℤ := round (q * 100)
  let sign := if c < 0 then "-" else ""
  let a := c.natAbs
  let r := a % 100
  sign ++ toString (a / 100) ++ "." ++ (if r < 10 then "0" else "") ++ toString r

/-- The formatted passage built for one surviving candidate inside
search_relevant_context (src/knowledge_base.py lines 134-147). -/
def formatDoc (doc : KBDoc) (score : ℚ) : String :=
  let source := doc.source.getD ("Unknown source")
  let sourceType := doc.file_type.getD (doc.typeTag.getD (""))
  let title := doc.title.getD ("")
  let header :=
    if title ≠ "" then "Source: " ++ title ++ " (" ++ sourceType ++ ")"
    else "Source: " ++ pathBasename source ++ " (" ++ sourceType ++ ")"
  header ++ "\nRelevance: " ++ formatScore score ++ "\nContent: " ++ doc.page_content ++ "\n"

/-- The loop of search_relevant_context over the similarity results: a
candidate is appended to formatted_results exactly when its score is
strictly above the relevance threshold. -/
def formattedResults (threshold : ℚ) : List (KBDoc × ℚ) → List String
  | [] => []
  | (doc, score) :: rest =>
    if threshold < score then formatDoc doc score :: formattedResults threshold rest
    else formattedResults threshold rest

/-- Sentinel returned when no candidate survives the threshold. -/
def kbNoInfo : String := "No relevant information found in knowledge base."

/-- Sentinel returned when the underlying similarity search raises. -/
def kbSearchError : String := "Error retrieving information from knowledge base."

/-- Outcome of db.similarity_search_with_relevance_scores: either the
scored candidate list or a raised exception message. -/
abbrev SearchOutcome := Except String (List (KBDoc × ℚ))

/-- Embedding of KnowledgeBase.search_relevant_context: the try block
formats the candidates above the threshold, returns the no-information
sentinel when none survive, and the except branch maps any exception to
the retrieval-error sentinel. -/
def search_relevant_context (threshold : ℚ) (outcome : SearchOutcome) : String :=
  match outcome with
  | Except.error _ => kbSearchError
  | Except.ok results =>
    let formatted := formattedResults threshold results
    if formatted = [] then kbNoInfo
    else joinSep ("\n\n") formatted

/-- Default relevance threshold: kb_settings.get with default 0.2. -/
def defaultRelevanceThreshold : ℚ := 2 / 10

/-! ## Document ingestion (src/knowledge_base.py) -/

/-- Environment for document ingestion on one fixed file path.  Each
extractor field is the outcome of the corresponding Python extraction
on that path: none models an exception inside the extractor (caught by
extract_text, which then returns None).  chunkCount is the number of
chunks the text splitter produces for a given text, and dbAdd is the
outcome of db.add_documents (error = raised exception, caught by the
outer try of process_document). -/
structure IngestEnv where
  pdfText : Option String
  txtText : Option String
  docxText : Option String
  chunkCount : String → ℕ
  dbAdd : Except String Unit

/-- Embedding of KnowledgeBase.extract_text: dispatch on the declared
file type; an unsupported type, like any extraction exception, yields
None. -/
def extract_text (env : IngestEnv) (file_type : String) : Option String :=
  if file_type = "pdf" then env.pdfText
  else if file_type = "txt" then env.txtText
  else if file_type = "docx" then env.docxText
  else none

/-- Failure message when extraction returns a falsy value. -/
def extractFailMsg : String := "Failed to extract text from document"

/-- Embedding of KnowledgeBase.process_document: extract text, fail on a
falsy result (None or empty string), otherwise chunk and add to the
store; any exception from the store is caught and rendered as an error
message with an unsuccessful flag.  The function is total, so no
exception escapes the ingestion boundary. -/
def process_document (env : IngestEnv) (file_type : String) : Bool × String :=
  match extract_text env file_type with
  | none => (false, extractFailMsg)
  | some text =>
    if text = "" then (false, extractFailMsg)
    else
      match env.dbAdd with
      | Except.error e => (false, "Error processing document: " ++ e)
      | Except.ok _ =>
        (true, "Successfully added " ++ toString (env.chunkCount text) ++ " chunks to knowledge base")

/-! ## Paper registry and persisted files (src/arxiv_tools.py, src/memory.py) -/

/-- A paper-registry record as written by save_paper_details. -/
structure PaperRecord where
  id : String
  title : String
  authors : String
  url : Option String
  summary : Option String
  last_accessed : ℕ
deriving DecidableEq, Repr

/-- The paper registry: a JSON object keyed by paper id, embedded as an
association list with Python-dict update semantics. -/
abbrev Registry := List (String × PaperRecord)

/-- Python dict assignment d[k] = v: replace in place when the key is
present, append otherwise. -/
def dictInsert {α : Type} : List (String × α) → String → α → List (String × α)
  | [], k, v => [(k, v)]
  | (k0, v0) :: rest, k, v =>
    if k0 = k then (k, v) :: rest else (k0, v0) :: dictInsert rest k v

/-- Python dict lookup d.get(k). -/
def dictLookup {α : Type} : List (String × α) → String → Option α
  | [], _ => none
  | (k0, v0) :: rest, k => if k0 = k then some v0 else dictLookup rest k

/-- The persisted files the repository mutates: the message log
(conversation_history.json) and the paper registry (paper_details.json).
A value none models a missing or unparsable file, which every loader in
the source maps to the empty structure. -/
structure FS where
  memoryFile : Option (List Msg)
  paperFile : Option Registry
deriving DecidableEq, Repr

/-- Embedding of get_paper_details (src/arxiv_tools.py): load the
registry file, or the empty dict when missing or unparsable. -/
def get_paper_details (fs : FS) : Registry := fs.paperFile.getD []

/-- Embedding of save_paper_details (src/arxiv_tools.py): load the
existing registry (empty on missing or unparsable file), assign the
record under its paper id, and rewrite the whole file. -/
def save_paper_details (fs : FS) (paper_id title authors : String)
    (url summary : Option String) (now : ℕ) : Bool × FS :=
  let paper_details := fs.paperFile.getD []
  let record : PaperRecord :=
    { id := paper_id, title := title, authors := authors,
      url := url, summary := summary, last_accessed := now }
  (true, { fs with paperFile := some (dictInsert paper_details paper_id record) })

/-- Embedding of PenelopeMemory._save_messages restricted to its file
effect: the whole message list is rewritten to the memory file. -/
def fsWriteMessages (fs : FS) (messages : List Msg) : FS :=
  { fs with memoryFile := some messages }

/-- Embedding of PenelopeMemory._load_messages restricted to its file
read: the stored list, or empty when the file is missing or
unparsable. -/
def fsLoadMessages (fs : FS) : List Msg := fs.memoryFile.getD []

/-! ## Missing KnowledgeBase methods

The class KnowledgeBase in src/knowledge_base.py defines exactly the
methods process_document, extract_text, extract_text_from_pdf and
search_relevant_context.  Two call sites reference methods it does not
define: PenelopeUI._get_kb_info (src/ui.py line 451) calls
self.knowledge_base.get_stats(), and summarize_arxiv_paper
(src/arxiv_tools.py line 220) calls knowledge_base.add_document(...).
In Python each such attribute access raises AttributeError with the
message below; both call sites sit inside a try/except that catches the
exception.  The two calls are therefore embedded as always-raising
computations carrying the AttributeError text. -/

/-- Statistics record that _get_kb_info would format, with the keys it
reads; no code in the repository ever produces one. -/
structure KBStats where
  total_documents : ℕ
  total_chunks : ℕ
  total_tokens : ℕ
  last_updated : String
  document_types : List (String × ℕ)
  sources : List (String × ℕ)
  recent_documents : List (String × String)
deriving DecidableEq, Repr

/-- The call self.knowledge_base.get_stats(): KnowledgeBase defines no
method get_stats, so the attribute access raises AttributeError. -/
def kbGetStats : Except String KBStats :=
  Except.error ("\x27KnowledgeBase\x27 object has no attribute \x27get_stats\x27")

/-- The call knowledge_base.add_document(...): KnowledgeBase defines no
method add_document, so the attribute access raises AttributeError. -/
def kbAddDocument : Except String Bool :=
  Except.error ("\x27KnowledgeBase\x27 object has no attribute \x27add_document\x27")

/-- Embedding of PenelopeUI._get_kb_info: format knowledge-base
statistics, catching any exception and rendering it as an error
string. -/
def getKbInfo (detailed : Bool) : String :=
  match kbGetStats with
  | Except.error e => "Error getting knowledge base information: " ++ e
  | Except.ok stats =>
    if !detailed then
      "📚 Knowledge Base Statistics:\n" ++
      "Total Documents: " ++ toString stats.total_documents ++ "\n" ++
      "Total Chunks: " ++ toString stats.total_chunks ++ "\n" ++
      "Total Tokens: " ++ toString stats.total_tokens ++ "\n" ++
      "Last Updated: " ++ stats.last_updated
    else
      joinSep ("\n")
        (["📚 Knowledge Base Details:", "\n📄 Document Types:"] ++
         stats.document_types.map (fun p => "- " ++ p.1 ++ ": " ++ toString p.2 ++ " documents") ++
         ["\n🔍 Sources:"] ++
         stats.sources.map (fun p => "- " ++ p.1 ++ ": " ++ toString p.2 ++ " documents") ++
         ["\n📅 Recent Documents:"] ++
         (stats.recent_documents.take 5).map (fun p => "- " ++ p.1 ++ " (" ++ p.2 ++ ")"))

/-! ## Chat routing (src/ui.py) and paper summarization (src/arxiv_tools.py) -/

/-- Environment of collaborator calls available to the chat handler:
the Claude generation call, the Perplexity web-search call, the arXiv
search flow, the vector-store similarity search (per query and top_k),
the configured relevance threshold, and the persisted files. -/
structure ChatEnv where
  claude : String → String
  perplexity : String → String
  arxivSearch : String → String
  kbSearch : String → ℕ → SearchOutcome
  relevanceThreshold : ℚ
  fs : FS

/-- Embedding of summarize_arxiv_paper as invoked from the UI, where a
claude model and a knowledge base are always supplied: load the paper
registry, look up the paper id, build the summarization prompt, and on
add_to_kb try knowledge_base.add_document, whose AttributeError is
caught and appended as an error suffix. -/
def summarize_arxiv_paper (env : ChatEnv) (paper_id : String) (add_to_kb : Bool) : String :=
  match env.fs.paperFile with
  | none => "No paper details found."
  | some papers =>
    match dictLookup papers paper_id with
    | none => "No details found for paper ID " ++ paper_id ++ "."
    | some paper =>
      let prompt :=
        "Please summarize the following research paper:\n\n" ++
        "Title: " ++ paper.title ++ "\n" ++
        "Authors: " ++ paper.authors ++ "\n" ++
        "Abstract: " ++ paper.summary.getD ("No abstract available.") ++ "\n" ++
        "URL: " ++ paper.url.getD ("N/A") ++ "\n"
      let summary := env.claude prompt
      if add_to_kb then
        match kbAddDocument with
        | Except.error e => summary ++ "\n\n❌ Error adding to knowledge base: " ++ e
        | Except.ok true => summary ++ "\n\n✅ Added to knowledge base."
        | Except.ok false => summary ++ "\n\n❌ Failed to add to knowledge base."
      else summary

/-- The 32 spaces of indentation inside the triple-quoted f-string of
the default chat flow (src/ui.py lines 237-246). -/
def sp32 : String := "                                "

/-- The combined retrieval-augmented prompt of the default chat flow,
with the literal indentation of the Python triple-quoted f-string. -/
def ragPrompt (message kb_results : String) : String :=
  "Based on the following context from our knowledge base, please answer the user\x27s question.\n" ++
  sp32 ++ "If the context doesn\x27t fully answer the question, you can use your general knowledge to supplement the answer.\n" ++
  "\n" ++
  sp32 ++ "User\x27s question: " ++ message ++ "\n" ++
  "\n" ++
  sp32 ++ "Relevant context from knowledge base:\n" ++
  sp32 ++ kb_results ++ "\n" ++
  "\n" ++
  sp32 ++ "Please provide a comprehensive answer that combines the knowledge base information with your general knowledge if needed.\n" ++
  sp32

/-- Embedding of the chat handler (PenelopeUI.build_ui.chat): prefix
dispatch on the lowercased utterance, then the default flow searching
the knowledge base and branching on non-emptiness of the result
string.  Returns the new history and the cleared input box. -/
def chat (env : ChatEnv) (message : String) (history : List Msg) : List Msg × String :=
  if pyStrip message = "" then (history, "")
  else if pyStartsWith (pyLower message) ("search arxiv:") then
    let query := pyStrip (pyDrop message 13)
    let result := env.arxivSearch query
    (history ++ [⟨"user", message⟩, ⟨"assistant", result⟩], "")
  else if pyStartsWith (pyLower message) ("summarize arxiv:") then
    let paper_id := pyStrip (pyDrop message 15)
    let result := summarize_arxiv_paper env paper_id true
    (history ++ [⟨"user", message⟩, ⟨"assistant", result⟩], "")
  else if pyStartsWith (pyLower message) ("search kb:") then
    let query := pyStrip (pyDrop message 10)
    let kb_results := search_relevant_context env.relevanceThreshold (env.kbSearch query 5)
    let result := "📚 Knowledge Base Search Results for \x27" ++ query ++ "\x27:\n\n" ++ kb_results
    (history ++ [⟨"user", message⟩, ⟨"assistant", result⟩], "")
  else if pyStartsWith (pyLower message) ("check kb") then
    let detailed := pyContains (pyLower message) ("detail") || pyContains (pyLower message) ("full")
    let result := getKbInfo detailed
    (history ++ [⟨"user", message⟩, ⟨"assistant", result⟩], "")
  else if pyStartsWith (pyLower message) ("perplexity:") then
    let query := pyStrip (pyDrop message 11)
    let result := env.perplexity query
    (history ++ [⟨"user", message⟩, ⟨"assistant", result⟩], "")
  else
    let kb_results := search_relevant_context env.relevanceThreshold (env.kbSearch message 3)
    if kb_results ≠ "" ∧ pyStrip kb_results ≠ "" then
      let response := env.claude (ragPrompt message kb_results)
      (history ++ [⟨"user", message⟩, ⟨"assistant", response⟩], "")
    else
      let response := env.perplexity message
      (history ++ [⟨"user", message⟩, ⟨"assistant", response⟩], "")

/-! ## Conversation memory (src/memory.py, src/models.py) -/

/-- A langchain chat message built by ClaudeModel.get_response. -/
inductive LCMessage where
  | human : String → LCMessage
  | ai : String → LCMessage
deriving DecidableEq, Repr

/-- Python slice l[-n:]: the last n elements. -/
def lastN {α : Type} (n : ℕ) (l : List α) : List α := l.drop (l.length - n)

/-- The message list ClaudeModel.get_response hands to the model: the
last six history entries mapped to typed messages, then the current
(possibly context-augmented) message. -/
def buildLCMessages (history : List Msg) (augmented : String) : List LCMessage :=
  ((lastN 6 history).filterMap (fun m =>
    if m.role = "user" then some (LCMessage.human m.content)
    else if m.role = "assistant" then some (LCMessage.ai m.content)
    else none)) ++ [LCMessage.human augmented]

/-- Embedding of ClaudeModel.get_response (src/models.py): augment the
message with the context when one is provided and truthy, build the
typed message list, and invoke the model; invoke abstracts the vendor
call. -/
def ClaudeModel.getResponse (invoke : List LCMessage → String)
    (message : String) (history : List Msg) (context : Option String) : String :=
  let augmented :=
    match context with
    | some c => if c = "" then message else message ++ "\n\n" ++ c
    | none => message
  invoke (buildLCMessages history augmented)

/-- State of langchain ConversationSummaryMemory as used here: the
rolling summary buffer returned by load_memory_variables, and the raw
chat messages accumulated through add_user_message and
add_ai_message. -/
structure SummaryMemory where
  buffer : String
  chatMessages : List Msg
deriving DecidableEq, Repr

/-- ConversationSummaryMemory.clear(): empties buffer and messages. -/
def SummaryMemory.clear : SummaryMemory := ⟨"", []⟩

/-- In-memory state of PenelopeMemory plus the persisted files. -/
structure MemoryState where
  messages : List Msg
  summaryMemory : SummaryMemory
  threadId : ℕ
  fs : FS

/-- Embedding of PenelopeMemory.get_paper_details_context: format the
registry entries, or a fixed line when none exist. -/
def getPaperDetailsContext (fs : FS) : String :=
  let paper_details := get_paper_details fs
  if paper_details = [] then "No papers have been discussed yet."
  else
    "Papers discussed in this conversation:\n\n" ++
    joinSep ("\n\n") (paper_details.map (fun p =>
      "Paper ID: " ++ p.1 ++ "\n" ++
      "Title: " ++ p.2.title ++ "\n" ++
      "Authors: " ++ p.2.authors ++ "\n" ++
      "URL: " ++ p.2.url.getD ("N/A")))

/-- Embedding of PenelopeMemory.add_message: append to the summary
memory chat log and to the message list, then persist the whole list. -/
def addMessage (st : MemoryState) (message : String) (is_human : Bool) : MemoryState :=
  let entry : Msg := if is_human then ⟨"user", message⟩ else ⟨"assistant", message⟩
  let messages := st.messages ++ [entry]
  { st with
    messages := messages,
    summaryMemory := { st.summaryMemory with
                       chatMessages := st.summaryMemory.chatMessages ++ [entry] },
    fs := fsWriteMessages st.fs messages }

/-- The history_context string built in the summarized branch of
PenelopeMemory.get_response, around the summary buffer. -/
def memoryHistoryContext (st : MemoryState) : String :=
  "Here\x27s a summary of our conversation so far:\n" ++ st.summaryMemory.buffer ++ "\n\n"

/-- The fixed assistant acknowledgement of the synthetic summary
history. -/
def memoryAck : String :=
  "I understand the conversation context and the papers we\x27ve discussed. What would you like to know next?"

/-- The context assembled on every turn: the provided context when
truthy, then the papers context. -/
def baseContext (st : MemoryState) (context : Option String) : String :=
  (match context with
   | some c => if c = "" then "" else c ++ "\n\n"
   | none => "") ++
  "Papers discussed: " ++ getPaperDetailsContext st.fs

/-- The history argument PenelopeMemory.get_response hands to the
generation call: the synthetic two-message summary pair once ten
messages are stored, the full message list below that. -/
def historyForGeneration (st : MemoryState) : List Msg :=
  if 10 ≤ st.messages.length then
    [⟨"user", memoryHistoryContext st⟩, ⟨"assistant", memoryAck⟩]
  else st.messages

/-- The context argument of the generation call in the corresponding
branch. -/
def contextForGeneration (st : MemoryState) (context : Option String) : String :=
  if 10 ≤ st.messages.length then memoryHistoryContext st ++ baseContext st context
  else baseContext st context

/-- Result of one memory turn: the answer, the successor state, and
whether this turn ran the summary-generation block (the branch of
src/memory.py line 121 logged as Generating conversation summary). -/
structure MemoryTurnResult where
  response : String
  state : MemoryState
  summaryGenerated : Bool

/-- Embedding of PenelopeMemory.get_response: the summary block fires
when the stored count is at least ten and divisible by ten; generation
receives either the full message list or the synthetic summary pair;
afterwards the user and assistant messages are appended and
persisted. -/
def PenelopeMemory.getResponse (invoke : List LCMessage → String)
    (st : MemoryState) (query : String) (context : Option String) : MemoryTurnResult :=
  let summaryGenerated := decide (10 ≤ st.messages.length) && decide (st.messages.length % 10 = 0)
  if 10 ≤ st.messages.length then
    let history_context := memoryHistoryContext st
    let final_context := history_context ++ baseContext st context
    let summary_history : List Msg := [⟨"user", history_context⟩, ⟨"assistant", memoryAck⟩]
    let response := ClaudeModel.getResponse invoke query summary_history (some final_context)
    let st2 := addMessage (addMessage st query true) response false
    ⟨response, st2, summaryGenerated⟩
  else
    let response := ClaudeModel.getResponse invoke query st.messages (some (baseContext st context))
    let st2 := addMessage (addMessage st query true) response false
    ⟨response, st2, summaryGenerated⟩

/-- Embedding of PenelopeMemory.reset: clear the message list, clear
the summarizer, install the freshly generated session token, and
persist the now-empty log; the paper-registry file is not touched. -/
def resetMemory (st : MemoryState) (freshId : ℕ) : MemoryState :=
  let st1 := { st with messages := [], summaryMemory := SummaryMemory.clear, threadId := freshId }
  { st1 with fs := fsWriteMessages st1.fs st1.messages }

/-- A run of consecutive memory turns: state after t turns, starting
from st0, with the t-th turn asking queries t. -/
def runMemory (invoke : List LCMessage → String) (queries : ℕ → String)
    (st0 : MemoryState) : ℕ → MemoryState
  | 0 => st0
  | t + 1 => (PenelopeMemory.getResponse invoke (runMemory invoke queries st0 t) (queries t) none).state

/-- The summary-generation flag observed on turn t of a run. -/
def turnSummaryFlag (invoke : List LCMessage → String) (queries : ℕ → String)
    (st0 : MemoryState) (t : ℕ) : Bool :=
  (PenelopeMemory.getResponse invoke (runMemory invoke queries st0 t) (queries t) none).summaryGenerated

/-! ## Helper lemmas -/

/-- The retrieval loop is the filter of the candidates strictly above
the threshold, formatted in the order the store returned them. -/
lemma formattedResults_eq_filter_map (thr : ℚ) (l : List (KBDoc × ℚ)) :
    formattedResults thr l
      = (l.filter (fun p => decide (thr < p.2))).map (fun p => formatDoc p.1 p.2) := by
  induction l with
  | nil => rfl
  | cons hd tl ih =>
    obtain ⟨d, s⟩ := hd
    by_cases h : thr < s
    · simp [formattedResults, h, ih, List.filter_cons]
    · simp [formattedResults, h, ih, List.filter_cons]

/-- Every element of the formatted list is the formatting of some
candidate of the input. -/
lemma mem_formattedResults (thr : ℚ) (l : List (KBDoc × ℚ)) (x : String)
    (hx : x ∈ formattedResults thr l) : ∃ p ∈ l, x = formatDoc p.1 p.2 := by
  rw [formattedResults_eq_filter_map] at hx
  obtain ⟨p, hp, hfmt⟩ := List.mem_map.mp hx
  exact ⟨p, List.mem_of_mem_filter hp, hfmt.symm⟩

/-- A formatted passage is never the empty string. -/
lemma formatDoc_length_pos (d : KBDoc) (s : ℚ) : 0 < (formatDoc d s).length := by
  have h1 : ("\n" : String).length = 1 := rfl
  simp only [formatDoc, String.length_append]
  omega

/-- Joining a nonempty list is at least as long as its head. -/
lemma joinSep_head_length_le (sep : String) (x : String) (xs : List String) :
    x.length ≤ (joinSep sep (x :: xs)).length := by
  cases xs with
  | nil => simp [joinSep]
  | cons y ys =>
    simp only [joinSep, String.length_append]
    omega

/-- Updating one key of a Python dict leaves every other key
unchanged. -/
lemma dictLookup_dictInsert_ne {α : Type} (l : List (String × α)) (k k2 : String) (v : α)
    (h : k2 ≠ k) : dictLookup (dictInsert l k v) k2 = dictLookup l k2 := by
  induction l with
  | nil =>
    simp only [dictInsert, dictLookup]
    rw [if_neg (fun hk => h hk.symm)]
  | cons hd tl ih =>
    obtain ⟨k0, v0⟩ := hd
    by_cases hk : k0 = k
    · subst hk
      simp only [dictInsert, if_pos rfl, dictLookup]
      rw [if_neg (fun hk => h hk.symm), if_neg (fun hk => h hk.symm)]
    · simp only [dictInsert, if_neg hk]
      by_cases hk2 : k0 = k2
      · simp [dictLookup, hk2]
      · simp [dictLookup, hk2, ih]

/-- Updating one key of a Python dict stores the value under that
key. -/
lemma dictLookup_dictInsert_self {α : Type} (l : List (String × α)) (k : String) (v : α) :
    dictLookup (dictInsert l k v) k = some v := by
  induction l with
  | nil => simp [dictInsert, dictLookup]
  | cons hd tl ih =>
    obtain ⟨k0, v0⟩ := hd
    by_cases hk : k0 = k
    · simp [dictInsert, dictLookup, hk]
    · simp [dictInsert, dictLookup, hk, ih]

/-! ## Claim theorems -/

/-- C4: retrieval never includes a candidate whose relevance score is
at or below the threshold, survivors appear in the order the similarity
search returned them (the formatted list is exactly the filter of the
candidate list mapped through the formatter), and when zero candidates
survive the result is the no-relevant-information sentinel rather than
an empty string. -/
theorem retrieval_threshold_and_sentinel (thr : ℚ) (results : List (KBDoc × ℚ)) :
    formattedResults thr results
      = (results.filter (fun p => decide (thr < p.2))).map (fun p => formatDoc p.1 p.2)
    ∧ (results.filter (fun p => decide (thr < p.2)) = [] →
        search_relevant_context thr (Except.ok results) = kbNoInfo)
    ∧ (results.filter (fun p => decide (thr < p.2)) ≠ [] →
        search_relevant_context thr (Except.ok results)
          = joinSep ("\n\n") (formattedResults thr results)) := by
  refine ⟨formattedResults_eq_filter_map thr results, ?_, ?_⟩
  · intro h
    simp [search_relevant_context, formattedResults_eq_filter_map, h]
  · intro h
    have h2 : formattedResults thr results ≠ [] := by
      rw [formattedResults_eq_filter_map]
      simpa using h
    simp [search_relevant_context, h2]

/-- A sample document for witness instantiations. -/
def sampleKBDoc : KBDoc :=
  { page_content := "chunk text", source := some ("papers/a.txt"),
    file_type := some ("txt"), typeTag := none, title := none }

/-- Witness for C4 at concrete inputs: a candidate scored 0.1 is
filtered out, leaving the sentinel; a candidate scored 0.5 survives. -/
theorem retrieval_threshold_and_sentinel_witness :
    search_relevant_context defaultRelevanceThreshold (Except.ok [(sampleKBDoc, 1 / 10)]) = kbNoInfo
    ∧ search_relevant_context defaultRelevanceThreshold (Except.ok [(sampleKBDoc, 1 / 2)])
        = joinSep ("\n\n") (formattedResults defaultRelevanceThreshold [(sampleKBDoc, 1 / 2)]) :=
  ⟨(retrieval_threshold_and_sentinel defaultRelevanceThreshold [(sampleKBDoc, 1 / 10)]).2.1
     (by norm_num [List.filter, defaultRelevanceThreshold]),
   (retrieval_threshold_and_sentinel defaultRelevanceThreshold [(sampleKBDoc, 1 / 2)]).2.2
     (by norm_num [List.filter, defaultRelevanceThreshold])⟩

/-- C10: for every threshold and every outcome of the underlying
similarity search, search_relevant_context returns a non-empty string
and never raises: formatted passages on survivors, the fixed
no-relevant-information sentinel when none survive, and the fixed
retrieval-error string when the search raised — so a caller testing
only for non-emptiness cannot distinguish the three outcomes. -/
theorem retrieval_total_and_never_empty (thr : ℚ) (outcome : SearchOutcome) :
    search_relevant_context thr outcome ≠ ""
    ∧ (∀ e, outcome = Except.error e → search_relevant_context thr outcome = kbSearchError)
    ∧ (∀ res, outcome = Except.ok res → formattedResults thr res = [] →
        search_relevant_context thr outcome = kbNoInfo) := by
  refine ⟨?_, ?_, ?_⟩
  · cases outcome with
    | error e =>
      simp only [search_relevant_context]
      decide
    | ok res =>
      by_cases h : formattedResults thr res = []
      · simp only [search_relevant_context, h, if_pos rfl]
        decide
      · obtain ⟨x, xs, hxx⟩ := List.exists_cons_of_ne_nil h
        have hmem : x ∈ formattedResults thr res := by
          rw [hxx]
          exact List.mem_cons_self x xs
        obtain ⟨p, _, hxfmt⟩ := mem_formattedResults thr res x hmem
        have hxlen : 0 < x.length := hxfmt ▸ formatDoc_length_pos p.1 p.2
        have hlen := joinSep_head_length_le ("\n\n") x xs
        have hval : search_relevant_context thr (Except.ok res)
            = joinSep ("\n\n") (formattedResults thr res) := by
          simp [search_relevant_context, h]
        intro heq
        rw [hval, hxx] at heq
        have hzero := congrArg String.length heq
        rw [String.length_empty] at hzero
        omega
  · intro e he
    subst he
    rfl
  · intro res hres h
    subst hres
    simp [search_relevant_context, h]

/-- Witness for C10 at concrete inputs: a raised search and an empty
store both yield their fixed non-empty sentinels. -/
theorem retrieval_total_and_never_empty_witness :
    search_relevant_context defaultRelevanceThreshold (Except.error ("boom")) ≠ ""
    ∧ search_relevant_context defaultRelevanceThreshold (Except.error ("boom")) = kbSearchError
    ∧ search_relevant_context defaultRelevanceThreshold (Except.ok []) = kbNoInfo :=
  ⟨(retrieval_total_and_never_empty defaultRelevanceThreshold (Except.error ("boom"))).1,
   (retrieval_total_and_never_empty defaultRelevanceThreshold (Except.error ("boom"))).2.1 _ rfl,
   (retrieval_total_and_never_empty defaultRelevanceThreshold (Except.ok [])).2.2 [] rfl rfl⟩

/-- C7: ingestion given a declared type outside pdf, txt, docx, or a
file whose text extraction fails (an extractor exception, modelled as
none, or a falsy empty extraction), returns an unsuccessful flag with a
message; process_document is a total function, so no exception passes
the ingestion boundary. -/
theorem ingestion_failure_is_returned (env : IngestEnv) (file_type : String) :
    (file_type ∉ (["pdf", "txt", "docx"] : List String) →
       process_document env file_type = (false, extractFailMsg))
    ∧ (extract_text env file_type = none →
       process_document env file_type = (false, extractFailMsg))
    ∧ (extract_text env file_type = some "" →
       process_document env file_type = (false, extractFailMsg)) := by
  refine ⟨?_, ?_, ?_⟩
  · intro h
    simp only [List.mem_cons, List.not_mem_nil, or_false, not_or] at h
    obtain ⟨h1, h2, h3⟩ := h
    simp [process_document, extract_text, h1, h2, h3]
  · intro h
    simp [process_document, h]
  · intro h
    simp [process_document, h]

/-- Ingestion environment whose extractors all fail. -/
def ingestEnvNone : IngestEnv :=
  { pdfText := none, txtText := none, docxText := none,
    chunkCount := fun _ => 0, dbAdd := Except.ok () }

/-- Ingestion environment whose txt extractor reads an empty file. -/
def ingestEnvEmptyTxt : IngestEnv :=
  { pdfText := none, txtText := some (""), docxText := none,
    chunkCount := fun _ => 0, dbAdd := Except.ok () }

/-- Witness for C7 at concrete inputs: an html upload and a failing or
empty extraction all return the failure pair. -/
theorem ingestion_failure_is_returned_witness :
    process_document ingestEnvNone ("html") = (false, extractFailMsg)
    ∧ process_document ingestEnvNone ("pdf") = (false, extractFailMsg)
    ∧ process_document ingestEnvEmptyTxt ("txt") = (false, extractFailMsg) :=
  ⟨(ingestion_failure_is_returned ingestEnvNone ("html")).1 (by decide),
   (ingestion_failure_is_returned ingestEnvNone ("pdf")).2.1 rfl,
   (ingestion_failure_is_returned ingestEnvEmptyTxt ("txt")).2.2 rfl⟩

/-- C3: while fewer than ten messages are stored, the generation call
receives the full message list as history; once at least ten are
stored, it instead receives the synthetic two-message pair of a user
message carrying the conversation summary and the fixed assistant
acknowledgement. -/
theorem memory_history_policy (invoke : List LCMessage → String) (st : MemoryState)
    (query : String) (context : Option String) :
    (PenelopeMemory.getResponse invoke st query context).response
      = ClaudeModel.getResponse invoke query (historyForGeneration st)
          (some (contextForGeneration st context))
    ∧ (st.messages.length < 10 → historyForGeneration st = st.messages)
    ∧ (10 ≤ st.messages.length →
        historyForGeneration st
          = [⟨"user", memoryHistoryContext st⟩, ⟨"assistant", memoryAck⟩]) := by
  refine ⟨?_, ?_, ?_⟩
  · by_cases h : 10 ≤ st.messages.length
    · simp [PenelopeMemory.getResponse, historyForGeneration, contextForGeneration, h]
    · simp [PenelopeMemory.getResponse, historyForGeneration, contextForGeneration, h]
  · intro h
    simp [historyForGeneration, Nat.not_le.mpr h]
  · intro h
    simp [historyForGeneration, h]

/-- A trivial generation collaborator for witnesses. -/
def witInvoke : List LCMessage → String := fun _ => "ok"

/-- An empty pair of persisted files. -/
def emptyFS : FS := ⟨none, none⟩

/-- Memory state with an empty log. -/
def memStateSmall : MemoryState := ⟨[], SummaryMemory.clear, 0, emptyFS⟩

/-- Memory state with ten stored messages. -/
def memStateBig : MemoryState :=
  ⟨List.replicate 10 ⟨"user", "m"⟩, SummaryMemory.clear, 0, emptyFS⟩

/-- Witness for C3 at concrete states: below ten stored messages the
history is the full list, at ten it is the synthetic pair. -/
theorem memory_history_policy_witness :
    historyForGeneration memStateSmall = memStateSmall.messages
    ∧ historyForGeneration memStateBig
        = [⟨"user", memoryHistoryContext memStateBig⟩, ⟨"assistant", memoryAck⟩] :=
  ⟨(memory_history_policy witInvoke memStateSmall ("q") none).2.1 (by decide),
   (memory_history_policy witInvoke memStateBig ("q") none).2.2 (by decide)⟩

/-- Each memory turn appends exactly the user and assistant message. -/
lemma getResponse_state_messages_length (invoke : List LCMessage → String)
    (st : MemoryState) (query : String) (context : Option String) :
    (PenelopeMemory.getResponse invoke st query context).state.messages.length
      = st.messages.length + 2 := by
  by_cases h : 10 ≤ st.messages.length <;>
    simp [PenelopeMemory.getResponse, addMessage, h]

/-- The summary-generation flag of a turn is determined by the stored
message count: at least ten and divisible by ten. -/
lemma getResponse_summaryGenerated (invoke : List LCMessage → String)
    (st : MemoryState) (query : String) (context : Option String) :
    (PenelopeMemory.getResponse invoke st query context).summaryGenerated
      = (decide (10 ≤ st.messages.length) && decide (st.messages.length % 10 = 0)) := by
  by_cases h : 10 ≤ st.messages.length <;>
    simp [PenelopeMemory.getResponse, h]

/-- Starting from an empty log, the stored count after t turns is 2t. -/
lemma runMemory_messages_length (invoke : List LCMessage → String) (queries : ℕ → String)
    (st0 : MemoryState) (h0 : st0.messages = []) :
    ∀ t, (runMemory invoke queries st0 t).messages.length = 2 * t := by
  intro t
  induction t with
  | zero => simp [runMemory, h0]
  | succ n ih =>
    simp only [runMemory, getResponse_state_messages_length, ih]
    omega

/-- The flag of turn t in a run from an empty log, as a function of
t. -/
lemma turnSummaryFlag_eq (invoke : List LCMessage → String) (queries : ℕ → String)
    (st0 : MemoryState) (h0 : st0.messages = []) (t : ℕ) :
    turnSummaryFlag invoke queries st0 t
      = (decide (10 ≤ 2 * t) && decide ((2 * t) % 10 = 0)) := by
  unfold turnSummaryFlag
  rw [getResponse_summaryGenerated, runMemory_messages_length invoke queries st0 h0]

/-- C6: in a run of memory turns from an empty log, the
summary-generation block fires exactly on the turns whose stored count
is a positive multiple of ten — once per threshold crossing, on the
turn after the 10th, 20th, etc. message is stored — and not on every
turn once the count is at or above ten. -/
theorem summary_generated_once_per_crossing (invoke : List LCMessage → String)
    (queries : ℕ → String) (st0 : MemoryState) (h0 : st0.messages = []) :
    (∀ t, turnSummaryFlag invoke queries st0 t = true ↔ (5 ≤ t ∧ t % 5 = 0))
    ∧ (∀ m, 1 ≤ m →
        ∃! t, (runMemory invoke queries st0 t).messages.length = 10 * m
              ∧ turnSummaryFlag invoke queries st0 t = true)
    ∧ (∃ t, 10 ≤ (runMemory invoke queries st0 t).messages.length
            ∧ turnSummaryFlag invoke queries st0 t = false) := by
  refine ⟨?_, ?_, ?_⟩
  · intro t
    rw [turnSummaryFlag_eq invoke queries st0 h0]
    simp only [Bool.and_eq_true, decide_eq_true_eq]
    omega
  · intro m hm
    refine ⟨5 * m, ⟨?_, ?_⟩, ?_⟩
    · rw [runMemory_messages_length invoke queries st0 h0]
      omega
    · rw [turnSummaryFlag_eq invoke queries st0 h0]
      simp only [Bool.and_eq_true, decide_eq_true_eq]
      omega
    · rintro t ⟨hlen, hflag⟩
      rw [runMemory_messages_length invoke queries st0 h0] at hlen
      omega
  · refine ⟨6, ?_, ?_⟩
    · rw [runMemory_messages_length invoke queries st0 h0]
      omega
    · rw [turnSummaryFlag_eq invoke queries st0 h0]
      decide

/-- A constant query stream for witnesses. -/
def witQueries : ℕ → String := fun _ => "q"

/-- Witness for C6 at a concrete run: the flag on turn 5 follows the
multiple-of-ten rule, and some turn with at least ten stored messages
does not generate a summary. -/
theorem summary_generated_once_per_crossing_witness :
    (turnSummaryFlag witInvoke witQueries memStateSmall 5 = true ↔ (5 ≤ 5 ∧ 5 % 5 = 0))
    ∧ (∃ t, 10 ≤ (runMemory witInvoke witQueries memStateSmall t).messages.length
            ∧ turnSummaryFlag witInvoke witQueries memStateSmall t = false) :=
  ⟨(summary_generated_once_per_crossing witInvoke witQueries memStateSmall rfl).1 5,
   (summary_generated_once_per_crossing witInvoke witQueries memStateSmall rfl).2.2⟩

/-- C8: reset clears the in-memory message list, clears the summarizer
state, installs the freshly issued session token, and persists an
empty message log, while the paper-registry file is untouched. -/
theorem reset_clears_and_preserves_registry (st : MemoryState) (freshId : ℕ)
    (h : freshId ≠ st.threadId) :
    (resetMemory st freshId).messages = []
    ∧ (resetMemory st freshId).summaryMemory = SummaryMemory.clear
    ∧ (resetMemory st freshId).threadId = freshId
    ∧ (resetMemory st freshId).threadId ≠ st.threadId
    ∧ (resetMemory st freshId).fs.memoryFile = some []
    ∧ (resetMemory st freshId).fs.paperFile = st.fs.paperFile :=
  ⟨rfl, rfl, rfl, h, rfl, rfl⟩

/-- A sample paper-registry record for witness instantiations. -/
def samplePaper : PaperRecord :=
  { id := "p1", title := "T", authors := "A", url := none, summary := none, last_accessed := 0 }

/-- A memory state with one stored message, a summary buffer, and one
registered paper. -/
def resetStateW : MemoryState :=
  ⟨[⟨"user", "hi"⟩], ⟨"old summary", [⟨"user", "hi"⟩]⟩, 0,
   ⟨some [⟨"user", "hi"⟩], some [("p1", samplePaper)]⟩⟩

/-- Witness for C8 at a concrete populated state and fresh token 1. -/
theorem reset_clears_and_preserves_registry_witness :
    (1 : ℕ) ≠ resetStateW.threadId
    ∧ ((resetMemory resetStateW 1).messages = []
       ∧ (resetMemory resetStateW 1).summaryMemory = SummaryMemory.clear
       ∧ (resetMemory resetStateW 1).threadId = 1
       ∧ (resetMemory resetStateW 1).threadId ≠ resetStateW.threadId
       ∧ (resetMemory resetStateW 1).fs.memoryFile = some []
       ∧ (resetMemory resetStateW 1).fs.paperFile = resetStateW.fs.paperFile) :=
  ⟨by decide, reset_clears_and_preserves_registry resetStateW 1 (by decide)⟩

/-- C9: saving and then loading the paper registry or the message log
with no intervening mutation yields the structure that was saved, and
writing a record for one paper id preserves every record stored under
any other id. -/
theorem registry_and_log_roundtrip (fs : FS) (pid title authors : String)
    (url summary : Option String) (now : ℕ) (msgs : List Msg) :
    get_paper_details (save_paper_details fs pid title authors url summary now).2
      = dictInsert (get_paper_details fs) pid
          ⟨pid, title, authors, url, summary, now⟩
    ∧ dictLookup (get_paper_details (save_paper_details fs pid title authors url summary now).2) pid
        = some ⟨pid, title, authors, url, summary, now⟩
    ∧ (∀ pid2, pid2 ≠ pid →
        dictLookup (get_paper_details (save_paper_details fs pid title authors url summary now).2) pid2
          = dictLookup (get_paper_details fs) pid2)
    ∧ fsLoadMessages (fsWriteMessages fs msgs) = msgs := by
  refine ⟨rfl, ?_, ?_, rfl⟩
  · exact dictLookup_dictInsert_self (get_paper_details fs) pid _
  · intro pid2 h2
    exact dictLookup_dictInsert_ne (get_paper_details fs) pid pid2 _ h2

/-- A file-system state with one stored message and one registered
paper. -/
def fsW : FS := ⟨some [⟨"user", "hi"⟩], some [("p1", samplePaper)]⟩

/-- Witness for C9 at concrete inputs: writing p2 preserves p1, the
written record is read back, and the message log round-trips. -/
theorem registry_and_log_roundtrip_witness :
    dictLookup (get_paper_details (save_paper_details fsW ("p2") ("T2") ("A2") none none 5).2) ("p1")
      = dictLookup (get_paper_details fsW) ("p1")
    ∧ dictLookup (get_paper_details (save_paper_details fsW ("p2") ("T2") ("A2") none none 5).2) ("p2")
      = some ⟨"p2", "T2", "A2", none, none, 5⟩
    ∧ fsLoadMessages (fsWriteMessages fsW [⟨"user", "x"⟩]) = [⟨"user", "x"⟩] :=
  ⟨(registry_and_log_roundtrip fsW ("p2") ("T2") ("A2") none none 5 [⟨"user", "x"⟩]).2.2.1 ("p1") (by decide),
   (registry_and_log_roundtrip fsW ("p2") ("T2") ("A2") none none 5 [⟨"user", "x"⟩]).2.1,
   (registry_and_log_roundtrip fsW ("p2") ("T2") ("A2") none none 5 [⟨"user", "x"⟩]).2.2.2⟩

/-- Chat environment with an empty knowledge base: the similarity
search returns no candidates, and generation and web search return
distinct marker answers. -/
def envC1 : ChatEnv :=
  { claude := fun _ => "claude-answer",
    perplexity := fun _ => "perplexity-answer",
    arxivSearch := fun _ => "arxiv-result",
    kbSearch := fun _ _ => Except.ok [],
    relevanceThreshold := defaultRelevanceThreshold,
    fs := ⟨none, none⟩ }

/-- C1 (evaluated at the failing input): on an unprefixed message with
an empty knowledge base, retrieval yields the non-empty
no-relevant-information sentinel, so the default flow still takes the
combined-prompt generation branch and never falls back to the
web-search collaborator — contradicting the claimed fallback. -/
theorem default_flow_never_falls_back :
    search_relevant_context envC1.relevanceThreshold (envC1.kbSearch ("hello") 3) = kbNoInfo
    ∧ chat envC1 ("hello") []
        = ([⟨"user", "hello"⟩, ⟨"assistant", "claude-answer"⟩], "")
    ∧ envC1.claude (ragPrompt ("hello") kbNoInfo) = "claude-answer"
    ∧ chat envC1 ("hello") []
        ≠ ([⟨"user", "hello"⟩, ⟨"assistant", envC1.perplexity ("hello")⟩], "") := by
  refine ⟨rfl, by decide, rfl, by decide⟩

/-- The registry record of the paper a user would ask to summarize. -/
def arxivPaperW : PaperRecord :=
  { id := "2201.12345", title := "Paper Title", authors := "Author One",
    url := some ("http://x/p.pdf"), summary := some ("An abstract"),
    last_accessed := 0 }

/-- Chat environment whose paper registry holds exactly the paper
2201.12345. -/
def envC2 : ChatEnv :=
  { claude := fun _ => "summary-text",
    perplexity := fun _ => "pplx",
    arxivSearch := fun _ => "ax",
    kbSearch := fun _ _ => Except.ok [],
    relevanceThreshold := defaultRelevanceThreshold,
    fs := ⟨none, some [("2201.12345", arxivPaperW)]⟩ }

/-- C2 (evaluated at the failing input): the summarize branch slices
message[15:] although the prefix summarize arxiv: is sixteen characters
long, so the extracted identifier keeps the colon and the registry
lookup fails even though the paper is registered; and even when
summarize_arxiv_paper is called with the correct identifier, the
knowledge-base insertion calls the nonexistent
KnowledgeBase.add_document, appending an AttributeError suffix instead
of inserting the summary. -/
theorem summarize_prefix_off_by_one :
    pyStrip (pyDrop ("summarize arxiv: 2201.12345") 15) = ": 2201.12345"
    ∧ dictLookup (get_paper_details envC2.fs) ("2201.12345") = some arxivPaperW
    ∧ chat envC2 ("summarize arxiv: 2201.12345") []
        = ([⟨"user", "summarize arxiv: 2201.12345"⟩,
            ⟨"assistant", "No details found for paper ID : 2201.12345."⟩], "")
    ∧ summarize_arxiv_paper envC2 ("2201.12345") true
        = "summary-text\n\n❌ Error adding to knowledge base: \x27KnowledgeBase\x27 object has no attribute \x27add_document\x27" := by
  refine ⟨by decide, rfl, by decide, by decide⟩

/-- Chat environment for the check kb flow; the knowledge base and the
collaborators are immaterial to this branch. -/
def envC5 : ChatEnv :=
  { claude := fun _ => "c",
    perplexity := fun _ => "p",
    arxivSearch := fun _ => "a",
    kbSearch := fun _ _ => Except.ok [],
    relevanceThreshold := defaultRelevanceThreshold,
    fs := ⟨none, none⟩ }

/-- C5 (evaluated at the failing input): every check kb utterance
routes to _get_kb_info, but KnowledgeBase defines no get_stats method,
so the flow always answers with the caught AttributeError rendered as
an error message, never with statistics. -/
theorem check_kb_reports_error :
    chat envC5 ("check kb") []
      = ([⟨"user", "check kb"⟩,
          ⟨"assistant", "Error getting knowledge base information: \x27KnowledgeBase\x27 object has no attribute \x27get_stats\x27"⟩], "")
    ∧ chat envC5 ("check kb details") []
      = ([⟨"user", "check kb details"⟩,
          ⟨"assistant", "Error getting knowledge base information: \x27KnowledgeBase\x27 object has no attribute \x27get_stats\x27"⟩], "")
    ∧ (∀ detailed : Bool, getKbInfo detailed
        = "Error getting knowledge base information: \x27KnowledgeBase\x27 object has no attribute \x27get_stats\x27") := by
  refine ⟨by decide, by decide, ?_⟩
  intro detailed
  cases detailed <;> rfl
